import Mathlib

/-!
Verification of the WhoDB desktop supervisor (`src/desktop/src-tauri/src/main.rs`).

The file shallowly embeds the launcher: binary location (`possible_paths`,
`locate`, from `start_backend` lines 62-97), the launch sequence
(`start_backend`, lines 49-159, with the surrounding `main` flow that stores
`BACKEND_INFO` as `launchMain`), the UI accessor (`get_backend_port`,
lines 29-40), and teardown (`cleanup_backend`, lines 161-171).

External effects are parameters: the filesystem is a predicate on paths, the
OS results of port allocation / spawn / `try_wait` are fields of `LaunchEnv`,
and `cleanup_backend` records the process-management calls it performs as a
trace of `CleanupAction`s, so that ordering (handle cleared before the kill)
and absence of a reap (`Child::wait` is never called there) are provable.
Mutex locks are modelled as always succeeding (the poisoned-lock branches of
the source only degrade logging and are unreachable in a panic-free run).
-/

namespace WhoDB

/-- A filesystem path, modelled as a string; `pjoin` is `Path::join`. -/
def pjoin (p c : String) : String := p ++ "/" ++ c

/-- The `exe_candidates` array of `start_backend` (main.rs line 64). -/
def exe_candidates : List String :=
  ["whodb-core", "whodb-core.exe", "bin/whodb-core", "bin/whodb-core.exe"]

/-- The debug-build candidates pushed first (main.rs lines 68-75): in debug
builds with `CARGO_MANIFEST_DIR` set, `<manifest>/bin/whodb-core.exe` then
`<manifest>/bin/whodb-core`. -/
def debug_bin_paths (debugAssertions : Bool) (manifestDir : Option String) : List String :=
  if debugAssertions then
    match manifestDir with
    | some m => [pjoin (pjoin m "bin") "whodb-core.exe", pjoin (pjoin m "bin") "whodb-core"]
    | none => []
  else []

/-- The three paths pushed per candidate name (main.rs lines 77-81):
`exe_dir/name`, `exe_dir/resources/name`, `exe_dir/../resources/name`. -/
def per_name_paths (exeDir name : String) : List String :=
  [pjoin exeDir name,
   pjoin (pjoin exeDir "resources") name,
   pjoin (pjoin (pjoin exeDir "..") "resources") name]

/-- The full ordered candidate list `possible_paths` of `start_backend`. -/
def possible_paths (debugAssertions : Bool) (manifestDir : Option String)
    (exeDir : String) : List String :=
  debug_bin_paths debugAssertions manifestDir ++
    exe_candidates.flatMap (per_name_paths exeDir)

/-- Result of the binary search loop (main.rs lines 83-97): either the first
existing candidate, or failure carrying the list of searched paths that the
error path enumerates on stderr. -/
inductive LocateResult
  | found (path : String)
  | notFound (searched : List String)
deriving DecidableEq

/-- The locator loop of `start_backend` (main.rs lines 83-97): scan
`possible_paths` in order, return the first path that exists; otherwise fail,
reporting every searched path. -/
def locate (fsExists : String → Bool) (debugAssertions : Bool)
    (manifestDir : Option String) (exeDir : String) : LocateResult :=
  match (possible_paths debugAssertions manifestDir exeDir).find? fsExists with
  | some p => .found p
  | none => .notFound (possible_paths debugAssertions manifestDir exeDir)

/-- The `BackendInfo` struct (main.rs lines 13-17). -/
structure BackendInfo where
  port : Nat
  pid : Option Nat
deriving DecidableEq

/-- A live child-process handle (std `Child`), identified by its pid. -/
structure ChildHandle where
  pid : Nat
deriving DecidableEq

/-- The global supervisor state: `BACKEND_INFO` and `BACKEND_CHILD`
(main.rs lines 20-21). -/
structure SupState where
  backendInfo : Option BackendInfo
  backendChild : Option ChildHandle
deriving DecidableEq

/-- Both globals start as `None` (main.rs lines 20-21). -/
def initState : SupState := ⟨none, none⟩

/-- Outcome of `child.try_wait()` after the 1-second grace sleep
(main.rs lines 130-151). -/
inductive TryWaitResult
  | exited (status : Int)
  | running
  | waitError (msg : String)
deriving DecidableEq

/-- The distinct failure exits of `start_backend`, one constructor per
`return Err(...)` shape in the source. -/
inductive LaunchError
  | portError (msg : String)
  | noExeDir
  | binaryNotFound (searched : List String)
  | spawnError (msg : String)
  | immediateExit (status : Int)
  | tryWaitError (msg : String)
deriving DecidableEq

/-- The observable configuration of the spawned command
(main.rs lines 106-116): binary path, `PORT` value,
`WHODB_ALLOWED_ORIGINS` value, and inherited stdio. -/
structure SpawnRecord where
  path : String
  envPORT : String
  envAllowedOrigins : String
  stdoutInherited : Bool
  stderrInherited : Bool
deriving DecidableEq

/-- The literal `WHODB_ALLOWED_ORIGINS` value (main.rs line 112). -/
def allowedOriginsValue : String :=
  "tauri://*,taur://*,app://*,http://localhost:1420,http://localhost:*,https://*"

/-- Helper for `splitComma`: splits a character list at commas, carrying the
reversed current chunk. -/
def splitCommaAux : List Char → List Char → List String
  | [], acc => [String.mk acc.reverse]
  | c :: rest, acc =>
    if c = ',' then String.mk acc.reverse :: splitCommaAux rest []
    else splitCommaAux rest (c :: acc)

/-- Split a string at commas; used to state what patterns the comma-separated
allow-list contains. -/
def splitComma (s : String) : List String := splitCommaAux s.toList []

/-- The OS-dependent inputs of one `start_backend` run: the result of
`find_available_port`, the filesystem, build configuration, the parent of
`current_exe`, the result of `spawn` (pid on success), and the result of the
post-grace `try_wait`. -/
structure LaunchEnv where
  portResult : Except String Nat
  fsExists : String → Bool
  debugAssertions : Bool
  manifestDir : Option String
  exeParent : Option String
  spawnResult : Except String Nat
  tryWait : TryWaitResult

/-- Everything one `start_backend` run produces: its return value, the global
state afterwards, and the spawned command's configuration (if a spawn
happened). -/
structure LaunchOutcome where
  result : Except LaunchError BackendInfo
  state : SupState
  spawned : Option SpawnRecord

/-- `start_backend` (main.rs lines 49-159). Allocates a port, locates the
binary, spawns it with `PORT` and `WHODB_ALLOWED_ORIGINS`, stores the child
in `BACKEND_CHILD`, sleeps, then checks `try_wait`: an already-exited child
makes the launch fail (the stored child is not removed on that path). -/
def start_backend (env : LaunchEnv) (s : SupState) : LaunchOutcome :=
  match env.portResult with
  | .error e => ⟨.error (.portError e), s, none⟩
  | .ok port =>
    match env.exeParent with
    | none => ⟨.error .noExeDir, s, none⟩
    | some exeDir =>
      match locate env.fsExists env.debugAssertions env.manifestDir exeDir with
      | .notFound searched => ⟨.error (.binaryNotFound searched), s, none⟩
      | .found coreBinary =>
        match env.spawnResult with
        | .error e => ⟨.error (.spawnError e), s, none⟩
        | .ok pid =>
          let record : SpawnRecord :=
            ⟨coreBinary, toString port, allowedOriginsValue, true, true⟩
          let s1 : SupState := { s with backendChild := some ⟨pid⟩ }
          match env.tryWait with
          | .exited status => ⟨.error (.immediateExit status), s1, some record⟩
          | .waitError m => ⟨.error (.tryWaitError m), s1, some record⟩
          | .running => ⟨.ok ⟨port, some pid⟩, s1, some record⟩

/-- The launch flow of `main` (main.rs lines 179-193): run `start_backend`
and, on success, store the returned `BackendInfo` in `BACKEND_INFO`; on
failure only log and continue. -/
def launchMain (env : LaunchEnv) (s : SupState) : LaunchOutcome :=
  match (start_backend env s).result with
  | .ok info =>
      ⟨.ok info, { (start_backend env s).state with backendInfo := some info },
        (start_backend env s).spawned⟩
  | .error _ => start_backend env s

/-- `get_backend_port` (main.rs lines 29-40): the port of `BACKEND_INFO`. -/
def get_backend_port (s : SupState) : Option Nat :=
  s.backendInfo.map (fun i => i.port)

/-- Process-management calls observable during `cleanup_backend`.
`waitReap` stands for `Child::wait` (reaping the child); the source's
`cleanup_backend` never performs it. -/
inductive CleanupAction
  | clearHandle
  | killAttempt (pid : Nat) (ok : Bool)
  | waitReap (pid : Nat)
deriving DecidableEq

/-- `cleanup_backend` (main.rs lines 161-171): `take()` the child out of
`BACKEND_CHILD` (clearing it), then `kill()` it, logging either outcome;
no `wait` follows the kill, and `BACKEND_INFO` is untouched. `killOk` is the
OS result of the kill. Returns the new state and the action trace. -/
def cleanup_backend (killOk : Bool) (s : SupState) : SupState × List CleanupAction :=
  match s.backendChild with
  | some c => ({ s with backendChild := none }, [.clearHandle, .killAttempt c.pid killOk])
  | none => (s, [])

/-- Modelled from the spec: the readiness probe (`waitForBackendReady`) is
not under `src/` — only the Rust launcher is; the probe lives in the UI
layer. Spec section 4.4: a bounded number of attempts "on the order of 30". -/
def maxReadinessAttempts : Nat := 30

/-- Modelled from the spec: a response status code counts as success when it
is an HTTP success status. -/
def isSuccessStatus (c : Nat) : Bool := 200 ≤ c && c < 300

/-- Outcome of the readiness probe, with the number of attempts consumed. -/
inductive ProbeOutcome
  | ready (attemptsUsed : Nat)
  | backendTimeout (attemptsUsed : Nat)
deriving DecidableEq

/-- Modelled from the spec: one polling loop starting at attempt `i` with
`remaining` attempts left. `respond i` is attempt `i`'s observation:
`some c` a response with status `c`, `none` a request error (connection
refused / timeout), which is treated as "not ready yet" and the loop
continues. -/
def pollFrom (respond : Nat → Option Nat) : Nat → Nat → ProbeOutcome
  | i, 0 => .backendTimeout i
  | i, rem + 1 =>
    match respond i with
    | some c =>
        if isSuccessStatus c then .ready (i + 1) else pollFrom respond (i + 1) rem
    | none => pollFrom respond (i + 1) rem

/-- Modelled from the spec: `waitForBackendReady` polls the backend's root
URL at a fixed interval for at most `maxReadinessAttempts` attempts. -/
def waitForBackendReady (respond : Nat → Option Nat) : ProbeOutcome :=
  pollFrom respond 0 maxReadinessAttempts

/-- Helper: `find?` returns the element at the first index satisfying the
predicate. -/
theorem find?_eq_get_of_first {α : Type} (p : α → Bool) :
    ∀ (l : List α) (i : Nat) (h : i < l.length),
      p (l.get ⟨i, h⟩) = true →
      (∀ j (hj : j < l.length), j < i → p (l.get ⟨j, hj⟩) = false) →
      l.find? p = some (l.get ⟨i, h⟩) := by
  intro l
  induction l with
  | nil => intro i h; exact absurd h (by simp)
  | cons a t ih =>
    intro i h hi hbefore
    cases i with
    | zero =>
      simp only [List.get] at hi
      simp [List.find?, hi]
    | succ i' =>
      have ha : p a = false := by
        have := hbefore 0 (by simp) (Nat.succ_pos i')
        simpa using this
      have ht := ih i' (by simpa using h) (by simpa using hi)
        (fun j hj hji => by
          have := hbefore (j + 1) (by simpa using Nat.succ_lt_succ hj)
            (Nat.succ_lt_succ hji)
          simpa using this)
      simp [List.find?, ha]
      simpa using ht

/-- Claim C1: for every candidate list built by the binary locator, `locate`
returns the first path in the fixed priority order that exists on the
filesystem: if the candidate at index `i` exists and every earlier candidate
does not, `locate` returns that candidate. -/
theorem locate_returns_first_existing (fsExists : String → Bool)
    (debugAssertions : Bool) (manifestDir : Option String) (exeDir : String)
    (i : Nat) (h : i < (possible_paths debugAssertions manifestDir exeDir).length)
    (hi : fsExists ((possible_paths debugAssertions manifestDir exeDir).get ⟨i, h⟩) = true)
    (hbefore : ∀ j (hj : j < (possible_paths debugAssertions manifestDir exeDir).length),
      j < i → fsExists ((possible_paths debugAssertions manifestDir exeDir).get ⟨j, hj⟩) = false) :
    locate fsExists debugAssertions manifestDir exeDir =
      .found ((possible_paths debugAssertions manifestDir exeDir).get ⟨i, h⟩) := by
  unfold locate
  rw [find?_eq_get_of_first fsExists _ i h hi hbefore]

/-- Witness for C1: candidates where only the second and third per-name paths
(`B` and `C`) exist; `locate` returns the second (`B`). -/
theorem locate_returns_first_existing_witness :
    locate
      (fun p => p == "/opt/app/resources/whodb-core" ||
        p == "/opt/app/../resources/whodb-core")
      false none "/opt/app" = .found "/opt/app/resources/whodb-core" := by
  have h := locate_returns_first_existing
    (fun p => p == "/opt/app/resources/whodb-core" ||
      p == "/opt/app/../resources/whodb-core")
    false none "/opt/app" 1 (by decide) (by decide)
    (by decide)
  simpa using h

/-- Claim C7: when no candidate exists, `locate` fails and the error payload
enumerates exactly the candidate paths generated, in order. -/
theorem locate_not_found (fsExists : String → Bool) (debugAssertions : Bool)
    (manifestDir : Option String) (exeDir : String)
    (hall : ∀ p ∈ possible_paths debugAssertions manifestDir exeDir, fsExists p = false) :
    locate fsExists debugAssertions manifestDir exeDir =
      .notFound (possible_paths debugAssertions manifestDir exeDir) := by
  unfold locate
  have hnone : (possible_paths debugAssertions manifestDir exeDir).find? fsExists = none := by
    rw [List.find?_eq_none]
    intro x hx
    simp [hall x hx]
  rw [hnone]

/-- Witness for C7: an empty filesystem makes `locate` report every candidate
it generated. -/
theorem locate_not_found_witness :
    locate (fun _ => false) false none "/opt/app" =
      .notFound (possible_paths false none "/opt/app") :=
  locate_not_found (fun _ => false) false none "/opt/app" (fun _ _ => rfl)

/-- A run in which the OS grants port 4321, the binary sits directly in the
executable's directory, the spawn succeeds with pid 42, and the child has
already exited (status 1) when `try_wait` runs after the grace sleep. -/
def envImmediateExit : LaunchEnv :=
  ⟨Except.ok 4321, fun p => p == "/opt/app/whodb-core", false, none,
    some "/opt/app", Except.ok 42, .exited 1⟩

/-- The same run, but the child is still alive after the grace period. -/
def envOk : LaunchEnv :=
  { envImmediateExit with tryWait := .running }

/-- Claim C2 counterexample: a launch that fails with the immediate-exit
error leaves the child handle stored in `BACKEND_CHILD` — the handle is not
`None` after the failed launch, contradicting the claimed invariant. -/
theorem immediate_exit_leaves_handle_stored :
    (start_backend envImmediateExit initState).result =
      .error (.immediateExit 1) ∧
    (start_backend envImmediateExit initState).state.backendChild = some ⟨42⟩ :=
  ⟨rfl, rfl⟩

/-- Claim C2 (amended): after `start_backend`, the stored child handle is
`Some` whenever the spawn succeeded — including when the launch fails with
an immediate-exit error (the observed termination does not clear it); the
handle becomes `None` only when `cleanup_backend` runs. -/
theorem child_stored_after_spawn (env : LaunchEnv) (s : SupState)
    (p pid : Nat) (d b : String)
    (hp : env.portResult = .ok p) (hd : env.exeParent = some d)
    (hb : locate env.fsExists env.debugAssertions env.manifestDir d = .found b)
    (hs : env.spawnResult = .ok pid) :
    (start_backend env s).state.backendChild = some ⟨pid⟩ ∧
    ∀ killOk, (cleanup_backend killOk (start_backend env s).state).1.backendChild = none := by
  unfold start_backend
  simp only [hp, hd, hb, hs]
  cases env.tryWait <;> exact ⟨rfl, fun _ => rfl⟩

/-- Witness for the amended C2, at the immediate-exit run. -/
theorem child_stored_after_spawn_witness :
    (start_backend envImmediateExit initState).state.backendChild = some ⟨42⟩ ∧
    (cleanup_backend true (start_backend envImmediateExit initState).state).1.backendChild = none :=
  ⟨(child_stored_after_spawn envImmediateExit initState 4321 42 "/opt/app"
      "/opt/app/whodb-core" rfl rfl rfl rfl).1,
   (child_stored_after_spawn envImmediateExit initState 4321 42 "/opt/app"
      "/opt/app/whodb-core" rfl rfl rfl rfl).2 true⟩

/-- Claim C3 counterexample: after a successful launch followed by
`cleanup_backend` (stop), `get_backend_port` still returns the allocated
port — not `None` as claimed — because cleanup never clears `BACKEND_INFO`. -/
theorem port_retained_after_stop :
    get_backend_port (cleanup_backend true (launchMain envOk initState).state).1 =
      some 4321 ∧
    get_backend_port (cleanup_backend true (launchMain envOk initState).state).1 ≠
      none :=
  ⟨rfl, fun h => Option.noConfusion h⟩

/-- Claim C3 (amended): `get_backend_port` returns `None` before any launch,
returns the allocated port after a successful launch, and — because
`cleanup_backend` never touches `BACKEND_INFO` — still returns that port
after termination. -/
theorem get_backend_port_lifecycle (env : LaunchEnv) (s : SupState)
    (info : BackendInfo) (killOk : Bool)
    (hres : (start_backend env s).result = .ok info) :
    get_backend_port initState = none ∧
    get_backend_port (launchMain env s).state = some info.port ∧
    get_backend_port (cleanup_backend killOk (launchMain env s).state).1 =
      some info.port := by
  have hinfo : (launchMain env s).state.backendInfo = some info := by
    unfold launchMain
    rw [hres]
  have hcleanup : ∀ s', (cleanup_backend killOk s').1.backendInfo = s'.backendInfo := by
    intro s'
    cases h : s'.backendChild <;> simp [cleanup_backend, h]
  exact ⟨rfl, by simp [get_backend_port, hinfo], by simp [get_backend_port, hcleanup, hinfo]⟩

/-- Witness for the amended C3, at the successful run on port 4321. -/
theorem get_backend_port_lifecycle_witness :
    get_backend_port initState = none ∧
    get_backend_port (launchMain envOk initState).state = some 4321 ∧
    get_backend_port (cleanup_backend true (launchMain envOk initState).state).1 =
      some 4321 :=
  get_backend_port_lifecycle envOk initState ⟨4321, some 42⟩ true rfl

/-- A state holding a running child with pid 42 on port 4321. -/
def s42 : SupState := ⟨some ⟨4321, some 42⟩, some ⟨42⟩⟩

/-- Claim C4 counterexample: stopping a present child kills it but performs
no blocking wait (`waitReap` never appears in the trace), and the handle is
cleared before — not after — the kill. -/
theorem stop_performs_no_wait :
    (cleanup_backend true s42).2 = [.clearHandle, .killAttempt 42 true] ∧
    CleanupAction.waitReap 42 ∉ (cleanup_backend true s42).2 := by
  exact ⟨rfl, by decide⟩

/-- Claim C4 (amended): if a child is present, `stop` clears the stored
handle and then sends one kill signal, without ever waiting for the OS to
reap the child; if no child is present, `stop` is a no-op. -/
theorem cleanup_present_child (s : SupState) (c : ChildHandle) (killOk : Bool)
    (h : s.backendChild = some c) :
    cleanup_backend killOk s =
      ({ s with backendChild := none }, [.clearHandle, .killAttempt c.pid killOk]) ∧
    (∀ pid, CleanupAction.waitReap pid ∉ (cleanup_backend killOk s).2) ∧
    (∀ s', s'.backendChild = none → cleanup_backend killOk s' = (s', [])) := by
  refine ⟨by simp [cleanup_backend, h], ?_, ?_⟩
  · intro pid
    simp [cleanup_backend, h]
  · intro s' h'
    simp [cleanup_backend, h']

/-- Witness for the amended C4: a failing kill still clears the handle. -/
theorem cleanup_present_child_witness :
    cleanup_backend false s42 =
      ({ s42 with backendChild := none }, [.clearHandle, .killAttempt 42 false]) :=
  (cleanup_present_child s42 ⟨42⟩ false rfl).1

/-- Claim C5: `stop` is idempotent — after one `cleanup_backend`, a second
call (whatever its kill outcome would be) changes nothing and attempts no
kill: its trace is empty and the composed transition equals the single one. -/
theorem stop_idempotent (killOk killOk2 : Bool) (s : SupState) :
    cleanup_backend killOk2 (cleanup_backend killOk s).1 =
      ((cleanup_backend killOk s).1, []) := by
  cases h : s.backendChild <;> simp [cleanup_backend, h]

/-- Claim C6: a child observed exited after the grace period makes the launch
fail with the immediate-exit error carrying that exit status, even though the
spawn itself succeeded; a child still running yields the allocated port and
the child's pid. -/
theorem launch_liveness_check (env : LaunchEnv) (s : SupState)
    (p pid : Nat) (d b : String)
    (hp : env.portResult = .ok p) (hd : env.exeParent = some d)
    (hb : locate env.fsExists env.debugAssertions env.manifestDir d = .found b)
    (hs : env.spawnResult = .ok pid) :
    (∀ status, env.tryWait = .exited status →
      (start_backend env s).result = .error (.immediateExit status)) ∧
    (env.tryWait = .running →
      (start_backend env s).result = .ok ⟨p, some pid⟩) := by
  unfold start_backend
  simp only [hp, hd, hb, hs]
  constructor
  · intro status ht
    simp only [ht]
  · intro ht
    simp only [ht]

/-- Witness for C6, at the immediate-exit run and at the healthy run. -/
theorem launch_liveness_check_witness :
    (start_backend envImmediateExit initState).result = .error (.immediateExit 1) ∧
    (start_backend envOk initState).result = .ok ⟨4321, some 42⟩ :=
  ⟨(launch_liveness_check envImmediateExit initState 4321 42 "/opt/app"
      "/opt/app/whodb-core" rfl rfl rfl rfl).1 1 rfl,
   (launch_liveness_check envOk initState 4321 42 "/opt/app"
      "/opt/app/whodb-core" rfl rfl rfl rfl).2 rfl⟩

/-- Claim C9: every successful launch spawns the located binary with `PORT`
set to the decimal representation of the allocated port — the same port in
the returned handle and later exposed through `get_backend_port` — and an
origin allow-list containing the local dev-server origin and the custom
URI scheme pattern. -/
theorem spawn_env_ports_and_origins (env : LaunchEnv) (s : SupState)
    (p pid : Nat) (d b : String)
    (hp : env.portResult = .ok p) (hd : env.exeParent = some d)
    (hb : locate env.fsExists env.debugAssertions env.manifestDir d = .found b)
    (hs : env.spawnResult = .ok pid) (ht : env.tryWait = .running) :
    (start_backend env s).spawned =
      some ⟨b, toString p, allowedOriginsValue, true, true⟩ ∧
    (start_backend env s).result = .ok ⟨p, some pid⟩ ∧
    get_backend_port (launchMain env s).state = some p ∧
    "http://localhost:1420" ∈ splitComma allowedOriginsValue ∧
    "tauri://*" ∈ splitComma allowedOriginsValue := by
  have hres : (start_backend env s).result = .ok ⟨p, some pid⟩ := by
    unfold start_backend
    simp only [hp, hd, hb, hs, ht]
  have hsp : (start_backend env s).spawned =
      some ⟨b, toString p, allowedOriginsValue, true, true⟩ := by
    unfold start_backend
    simp only [hp, hd, hb, hs, ht]
  have hport : get_backend_port (launchMain env s).state = some p := by
    simp [launchMain, hres, get_backend_port]
  exact ⟨hsp, hres, hport, by decide, by decide⟩

/-- Witness for C9, at the healthy run: `PORT` is the string `4321` and the
UI accessor reports 4321. -/
theorem spawn_env_ports_and_origins_witness :
    (start_backend envOk initState).spawned =
      some ⟨"/opt/app/whodb-core", "4321", allowedOriginsValue, true, true⟩ ∧
    get_backend_port (launchMain envOk initState).state = some 4321 := by
  have h := spawn_env_ports_and_origins envOk initState 4321 42 "/opt/app"
    "/opt/app/whodb-core" rfl rfl rfl rfl rfl
  exact ⟨by rw [h.1]; decide, h.2.2.1⟩

/-- Claim C10: `cleanup_backend` takes the handle out of the global state
before attempting the kill, so after `stop` the handle is cleared even when
the kill fails (the failure is only logged), and any subsequent `stop` is a
no-op regardless of the kill outcome. -/
theorem cleanup_clears_handle_first (s : SupState) (c : ChildHandle) (killOk : Bool)
    (h : s.backendChild = some c) :
    (cleanup_backend killOk s).1.backendChild = none ∧
    (cleanup_backend killOk s).2 = [.clearHandle, .killAttempt c.pid killOk] ∧
    ∀ killOk2, cleanup_backend killOk2 (cleanup_backend killOk s).1 =
      ((cleanup_backend killOk s).1, []) := by
  refine ⟨by simp [cleanup_backend, h], by simp [cleanup_backend, h],
    fun killOk2 => by simp [cleanup_backend, h]⟩

/-- Witness for C10: even a failing kill leaves the handle cleared. -/
theorem cleanup_clears_handle_first_witness :
    (cleanup_backend false s42).1.backendChild = none ∧
    (cleanup_backend false s42).2 = [.clearHandle, .killAttempt 42 false] :=
  ⟨(cleanup_clears_handle_first s42 ⟨42⟩ false rfl).1,
   (cleanup_clears_handle_first s42 ⟨42⟩ false rfl).2.1⟩

/-- Helper: a request error at the current attempt advances the loop. -/
theorem pollFrom_step_none (respond : Nat → Option Nat) (i rem : Nat)
    (h : respond i = none) :
    pollFrom respond i (rem + 1) = pollFrom respond (i + 1) rem := by
  simp [pollFrom, h]

/-- Helper: with no response ever, the probe consumes its whole budget and
times out. -/
theorem pollFrom_timeout (respond : Nat → Option Nat) :
    ∀ (rem i : Nat), (∀ j, respond j = none) →
      pollFrom respond i rem = .backendTimeout (i + rem) := by
  intro rem
  induction rem with
  | zero =>
    intro i _
    simp [pollFrom]
  | succ r ih =>
    intro i h
    rw [pollFrom_step_none respond i r (h i), ih (i + 1) h]
    congr 1
    omega

/-- Helper: if the first `k` attempts after `i` get no usable response and
attempt `i + k` (within budget) gets a success status, the probe reports
ready right there. -/
theorem pollFrom_first_success (respond : Nat → Option Nat) :
    ∀ (rem i k : Nat), k < rem →
      (∀ j, j < k → respond (i + j) = none) →
      ∀ c, respond (i + k) = some c → isSuccessStatus c = true →
        pollFrom respond i rem = .ready (i + k + 1) := by
  intro rem
  induction rem with
  | zero =>
    intro i k hk
    exact absurd hk (Nat.not_lt_zero k)
  | succ r ih =>
    intro i k hk hnone c hc hs
    cases k with
    | zero =>
      have hc' : respond i = some c := by simpa using hc
      simp [pollFrom, hc', hs]
    | succ k' =>
      have h0 : respond i = none := by simpa using hnone 0 (Nat.succ_pos k')
      rw [pollFrom_step_none respond i r h0]
      have hres := ih (i + 1) k' (by omega)
        (fun j hj => by
          have e : i + 1 + j = i + (j + 1) := by omega
          rw [e]
          exact hnone (j + 1) (by omega))
        c (by
          have e : i + 1 + k' = i + (k' + 1) := by omega
          rw [e]
          exact hc) hs
      rw [hres]
      congr 1
      omega

/-- Claim C8: the readiness probe polls for a bounded number of attempts
(30). Against a server that never responds it times out after exactly the
attempt budget, never earlier; request errors are treated as not-ready and
the loop continues, succeeding on the first response with a success status. -/
theorem waitForBackendReady_budget (respondNever respondLate : Nat → Option Nat)
    (i : Nat)
    (hnever : ∀ j, respondNever j = none)
    (hi : i < maxReadinessAttempts)
    (hbefore : ∀ j, j < i → respondLate j = none)
    (c : Nat) (hc : respondLate i = some c) (hs : isSuccessStatus c = true) :
    waitForBackendReady respondNever = .backendTimeout maxReadinessAttempts ∧
    waitForBackendReady respondLate = .ready (i + 1) := by
  constructor
  · unfold waitForBackendReady
    simpa using pollFrom_timeout respondNever maxReadinessAttempts 0 hnever
  · unfold waitForBackendReady
    have h := pollFrom_first_success respondLate maxReadinessAttempts 0 i hi
      (fun j hj => by simpa using hbefore j hj) c (by simpa using hc) hs
    simpa using h

/-- Witness for C8: a server that never answers times out after exactly 30
attempts; a server whose requests error until attempt index 5, which gets
HTTP 200, is reported ready after 6 attempts. -/
theorem waitForBackendReady_budget_witness :
    waitForBackendReady (fun _ => none) = .backendTimeout 30 ∧
    waitForBackendReady (fun j => if j == 5 then some 200 else none) = .ready 6 :=
  waitForBackendReady_budget (fun _ => none)
    (fun j => if j == 5 then some 200 else none) 5
    (fun _ => rfl) (by decide) (by decide) 200 rfl rfl

end WhoDB
